import Mathlib

/-!
The reference-counted wrapper and callback trampoline of cfx_dialog_handler.

A shallow embedding of `ChromiumFX/libcfx/Generated/cfx_dialog_handler.c`.

* Data pointers and handles are natural numbers, `0` being the null pointer.
* Code addresses stored in the native method table are the constructors of `FnPtr`.
* `unsigned int` is a natural number below `4294967296 = 2 ^ 32`; arithmetic on it is
  reduced modulo `4294967296`.  `int` is an integer; a conversion to `int` goes through
  `toInt32`.
* The heap cell holding the wrapper is an `Option`: `none` once `free` has been called on it.
* Calls that leave the translation unit (`cfx_gc_handle_free`, `cfx_gc_handle_free_remote`,
  `free`, the managed callback, `base.release` of a foreign object) are recorded as `Event`s
  in program order.
* A call that the C code cannot survive (a call through a null function pointer, a member
  access through a null object pointer, any access to the record after `free`) yields `none`.
-/

namespace CfxDialogHandler

/-- Data pointer (`void*`, `char16*`, `cef_browser_t*` ...); `0` is null. -/
abbrev Ptr := Nat

/-- The handle to the managed-side object (`gc_handle_t`). -/
abbrev gc_handle_t := Nat

/-- Code addresses that this file stores in the native method table; `null` is `0`. -/
inductive FnPtr where
  | null
  | _cfx_dialog_handler_add_ref
  | _cfx_dialog_handler_release
  | _cfx_dialog_handler_has_one_ref
  | cfx_dialog_handler_on_file_dialog
  deriving DecidableEq, Repr

/-- The native base table: `size` followed by the three lifetime function pointers. -/
structure cef_base_t where
  size : Nat
  add_ref : FnPtr
  release : FnPtr
  has_one_ref : FnPtr
  deriving DecidableEq, Repr

/-- The native interface struct: the base table and the one interface method. -/
structure cef_dialog_handler_t where
  base : cef_base_t
  on_file_dialog : FnPtr
  deriving DecidableEq, Repr

/-- The wrapper record `cfx_dialog_handler_t` (source lines 36-43). -/
structure cfx_dialog_handler_t where
  cef_dialog_handler : cef_dialog_handler_t
  ref_count : Nat
  gc_handle : gc_handle_t
  wrapper_kind : Int
  on_file_dialog : Ptr
  deriving DecidableEq, Repr

/-- A native text buffer `cef_string_t`: `str` and the `size_t` element count `length`. -/
structure cef_string_t where
  str : Ptr
  length : Nat
  deriving DecidableEq, Repr

/-- What the managed callback is handed by value (the three output slots apart). -/
structure ManagedArgs where
  self : gc_handle_t
  browser : Ptr
  mode : Int
  title_str : Ptr
  title_length : Int
  default_file_path_str : Ptr
  default_file_path_length : Int
  accept_filters : Ptr
  selected_accept_filter : Int
  callback : Ptr
  deriving DecidableEq, Repr

/-- What the managed callback writes through its three output slots. -/
structure ManagedOut where
  __retval : Int
  browser_release : Int
  callback_release : Int
  deriving DecidableEq, Repr

/-- Calls that leave this translation unit, in program order. -/
inductive Event where
  | cfx_gc_handle_free (h : gc_handle_t)
  | cfx_gc_handle_free_remote (h : gc_handle_t)
  | free
  | managed_call (fn : Ptr) (args : ManagedArgs)
  | base_release (obj : Ptr)
  deriving DecidableEq, Repr

/-- Conversion of an unsigned value to the 32-bit `int`: the low 32 bits, read as
two's complement. -/
def toInt32 (n : Nat) : Int :=
  if n % 4294967296 < 2147483648 then ((n % 4294967296 : Nat) : Int)
  else ((n % 4294967296 : Nat) : Int) - 4294967296

/-- The 32-bit atomic increment: the value stored back. -/
def InterlockedIncrement (v : Nat) : Nat :=
  (v + 1) % 4294967296

/-- The 32-bit atomic decrement: the value stored back (it is also the value returned). -/
def InterlockedDecrement (v : Nat) : Nat :=
  (v + 4294967295) % 4294967296

/-- Source lines 45-47. -/
def _cfx_dialog_handler_add_ref (base : cfx_dialog_handler_t) : cfx_dialog_handler_t :=
  { base with ref_count := InterlockedIncrement base.ref_count }

/-- The outcome of one `release` call. -/
structure ReleaseResult where
  ret : Int
  events : List Event
  heap : Option cfx_dialog_handler_t
  deriving DecidableEq, Repr

/-- Source lines 48-60. -/
def _cfx_dialog_handler_release (base : cfx_dialog_handler_t) : ReleaseResult :=
  let stored := InterlockedDecrement base.ref_count
  let count : Int := toInt32 stored
  if count = 0 then
    { ret := 1
      events :=
        [ if base.wrapper_kind = 0 then Event.cfx_gc_handle_free base.gc_handle
          else Event.cfx_gc_handle_free_remote base.gc_handle,
          Event.free ]
      heap := none }
  else
    { ret := 0, events := [], heap := some { base with ref_count := stored } }

/-- Source lines 61-63: the returned `int` and the record as the call leaves it. -/
def _cfx_dialog_handler_has_one_ref (base : cfx_dialog_handler_t) :
    Int × cfx_dialog_handler_t :=
  (if base.ref_count = 1 then 1 else 0, base)

/-- The record as `calloc(1, sizeof(cfx_dialog_handler_t))` hands it out: all zero. -/
def calloc_zeroed : cfx_dialog_handler_t :=
  { cef_dialog_handler :=
      { base := { size := 0, add_ref := FnPtr.null, release := FnPtr.null,
                  has_one_ref := FnPtr.null }
        on_file_dialog := FnPtr.null }
    ref_count := 0
    gc_handle := 0
    wrapper_kind := 0
    on_file_dialog := 0 }

/-- Source lines 65-76.  `calloc_ok` says whether `calloc` returned a record;
`sizeof_cef_dialog_handler_t` is `sizeof(cef_dialog_handler_t)`, whose declaration lives in
the framework headers. -/
def cfx_dialog_handler_ctor (sizeof_cef_dialog_handler_t : Nat) (calloc_ok : Bool)
    (gc_handle : gc_handle_t) (wrapper_kind : Int) : Option cfx_dialog_handler_t :=
  if !calloc_ok then none
  else
    let ptr := calloc_zeroed
    let ptr := { ptr with cef_dialog_handler.base.size := sizeof_cef_dialog_handler_t }
    let ptr := { ptr with
      cef_dialog_handler.base.add_ref := FnPtr._cfx_dialog_handler_add_ref }
    let ptr := { ptr with
      cef_dialog_handler.base.release := FnPtr._cfx_dialog_handler_release }
    let ptr := { ptr with
      cef_dialog_handler.base.has_one_ref := FnPtr._cfx_dialog_handler_has_one_ref }
    let ptr := { ptr with ref_count := 1 }
    let ptr := { ptr with gc_handle := gc_handle }
    let ptr := { ptr with wrapper_kind := wrapper_kind }
    some ptr

/-- Source lines 78-80. -/
def cfx_dialog_handler_get_gc_handle (self : cfx_dialog_handler_t) : gc_handle_t :=
  self.gc_handle

/-- The outcome of one trampoline call: the returned `int` and the outgoing calls. -/
structure TrampolineResult where
  ret : Int
  events : List Event
  deriving DecidableEq, Repr

/-- The values the trampoline hands to the managed callback (the argument list of the call
on source line 88). -/
def on_file_dialog_args (self : cfx_dialog_handler_t) (browser : Ptr) (mode : Int)
    (title : Option cef_string_t) (default_file_path : Option cef_string_t)
    (accept_filters : Ptr) (selected_accept_filter : Int) (callback : Ptr) : ManagedArgs :=
  { self := self.gc_handle
    browser := browser
    mode := mode
    title_str := match title with
      | some t => t.str
      | none => 0
    title_length := match title with
      | some t => toInt32 t.length
      | none => 0
    default_file_path_str := match default_file_path with
      | some d => d.str
      | none => 0
    default_file_path_length := match default_file_path with
      | some d => toInt32 d.length
      | none => 0
    accept_filters := accept_filters
    selected_accept_filter := selected_accept_filter
    callback := callback }

/-- Source lines 84-92.  `managed p` is the behaviour of the managed function at address
`p`: what it writes through `__retval`, `browser_release` and `callback_release`.
A null `title` or `default_file_path` is `none`.  The result is `none` where the C code
calls through a null function pointer or reaches `->base.release` through a null object
pointer. -/
def cfx_dialog_handler_on_file_dialog (managed : Ptr → ManagedArgs → ManagedOut)
    (self : cfx_dialog_handler_t) (browser : Ptr) (mode : Int)
    (title : Option cef_string_t) (default_file_path : Option cef_string_t)
    (accept_filters : Ptr) (selected_accept_filter : Int) (callback : Ptr) :
    Option TrampolineResult :=
  if self.on_file_dialog = 0 then none
  else
    let args := on_file_dialog_args self browser mode title default_file_path
      accept_filters selected_accept_filter callback
    let out := managed self.on_file_dialog args
    let events := [Event.managed_call self.on_file_dialog args]
    if out.browser_release ≠ 0 ∧ browser = 0 then none
    else
      let events :=
        if out.browser_release ≠ 0 then events ++ [Event.base_release browser] else events
      if out.callback_release ≠ 0 ∧ callback = 0 then none
      else
        let events :=
          if out.callback_release ≠ 0 then events ++ [Event.base_release callback]
          else events
        some { ret := out.__retval, events := events }

/-- Source lines 94-101. -/
def cfx_dialog_handler_set_callback (self : cfx_dialog_handler_t) (index : Int)
    (callback : Ptr) : cfx_dialog_handler_t :=
  if index = 0 then
    let self := { self with on_file_dialog := callback }
    { self with
      cef_dialog_handler.on_file_dialog :=
        if callback ≠ 0 then FnPtr.cfx_dialog_handler_on_file_dialog else FnPtr.null }
  else self

/-- One call made on the wrapper by the native framework or the managed side. -/
inductive Call where
  | add_ref
  | release
  | set_callback (index : Int) (callback : Ptr)
  deriving DecidableEq, Repr

/-- The heap cell of the wrapper together with what has been observed so far: the values
returned by the `release` calls and the outgoing calls, both in program order. -/
structure Machine where
  heap : Option cfx_dialog_handler_t
  rets : List Int
  events : List Event
  deriving DecidableEq, Repr

/-- The machine right after construction. -/
def Machine.init (w : cfx_dialog_handler_t) : Machine :=
  { heap := some w, rets := [], events := [] }

/-- One call on the heap cell; `none` when the record has already been freed. -/
def step (m : Machine) (c : Call) : Option Machine :=
  match m.heap with
  | none => none
  | some w =>
    match c with
    | Call.add_ref => some { m with heap := some (_cfx_dialog_handler_add_ref w) }
    | Call.release =>
      let r := _cfx_dialog_handler_release w
      some { heap := r.heap, rets := m.rets ++ [r.ret], events := m.events ++ r.events }
    | Call.set_callback index callback =>
      some { m with heap := some (cfx_dialog_handler_set_callback w index callback) }

/-- A sequence of calls, left to right. -/
def run : List Call → Machine → Option Machine
  | [], m => some m
  | c :: cs, m => (step m c).bind (run cs)

/-- Construction followed by a sequence of calls. -/
def construct_and_run (sizeof_cef_dialog_handler_t : Nat) (gc_handle : gc_handle_t)
    (wrapper_kind : Int) (cs : List Call) : Option Machine :=
  (cfx_dialog_handler_ctor sizeof_cef_dialog_handler_t true gc_handle wrapper_kind).bind
    (fun w => run cs (Machine.init w))


/-! ## Arithmetic of the 32-bit counter -/

theorem toInt32_eq_zero_iff (n : Nat) : toInt32 n = 0 ↔ n % 4294967296 = 0 := by
  unfold toInt32
  split <;> omega

theorem toInt32_eq_self_iff (n : Nat) : toInt32 n = (n : Int) ↔ n < 2147483648 := by
  unfold toInt32
  split <;> omega

theorem InterlockedDecrement_eq_zero_iff (v : Nat) (hv : v < 4294967296) :
    InterlockedDecrement v = 0 ↔ v = 1 := by
  unfold InterlockedDecrement
  omega

theorem InterlockedDecrement_lt (v : Nat) : InterlockedDecrement v < 4294967296 := by
  unfold InterlockedDecrement
  omega

theorem release_count_eq_zero_iff (v : Nat) (hv : v < 4294967296) :
    toInt32 (InterlockedDecrement v) = 0 ↔ v = 1 := by
  rw [toInt32_eq_zero_iff]
  unfold InterlockedDecrement
  omega

/-! ## One `release` call -/

theorem release_of_one (w : cfx_dialog_handler_t) (h : w.ref_count = 1) :
    _cfx_dialog_handler_release w =
      { ret := 1
        events :=
          [ if w.wrapper_kind = 0 then Event.cfx_gc_handle_free w.gc_handle
            else Event.cfx_gc_handle_free_remote w.gc_handle,
            Event.free ]
        heap := none } := by
  have hz : toInt32 (InterlockedDecrement w.ref_count) = 0 :=
    (release_count_eq_zero_iff w.ref_count (by omega)).mpr h
  simp [_cfx_dialog_handler_release, hz]

theorem release_of_ne_one (w : cfx_dialog_handler_t) (hlt : w.ref_count < 4294967296)
    (h : w.ref_count ≠ 1) :
    _cfx_dialog_handler_release w =
      { ret := 0, events := []
        heap := some { w with ref_count := InterlockedDecrement w.ref_count } } := by
  have hz : ¬ toInt32 (InterlockedDecrement w.ref_count) = 0 := fun hc =>
    h ((release_count_eq_zero_iff w.ref_count hlt).mp hc)
  simp [_cfx_dialog_handler_release, hz]


/-! ## Sequences of calls -/

theorem run_cons (c : Call) (cs : List Call) (m : Machine) :
    run (c :: cs) m = (step m c).bind (run cs) := rfl

theorem run_single (c : Call) (m : Machine) : run [c] m = step m c := by
  rw [run_cons]
  cases step m c with
  | none => rfl
  | some m1 => rfl

theorem run_append (cs ds : List Call) (m : Machine) :
    run (cs ++ ds) m = (run cs m).bind (run ds) := by
  induction cs generalizing m with
  | nil => simp [run]
  | cons c cs ih =>
    simp only [List.cons_append, run]
    cases h : step m c with
    | none => simp
    | some m1 => simp [ih]

theorem run_freed (c : Call) (cs : List Call) (rs : List Int) (es : List Event) :
    run (c :: cs) { heap := none, rets := rs, events := es } = none := by
  simp [run, step]

theorem run_add_refs (n : Nat) (w : cfx_dialog_handler_t) (rs : List Int) (es : List Event)
    (hlt : w.ref_count < 4294967296) :
    run (List.replicate n Call.add_ref) { heap := some w, rets := rs, events := es } =
      some { heap := some { w with ref_count := (w.ref_count + n) % 4294967296 }
             rets := rs, events := es } := by
  induction n generalizing w with
  | zero =>
    have h0 : w.ref_count % 4294967296 = w.ref_count := by omega
    simp [run, h0]
  | succ n ih =>
    have h1 : (InterlockedIncrement w.ref_count + n) % 4294967296 =
        (w.ref_count + (n + 1)) % 4294967296 := by
      unfold InterlockedIncrement
      omega
    have h2 : InterlockedIncrement w.ref_count < 4294967296 := by
      unfold InterlockedIncrement
      omega
    have ih1 := ih (_cfx_dialog_handler_add_ref w) h2
    simp only [_cfx_dialog_handler_add_ref] at ih1
    simp only [List.replicate_succ, run, step, _cfx_dialog_handler_add_ref, Option.some_bind]
    rw [ih1, h1]

theorem run_releases_live (n : Nat) (w : cfx_dialog_handler_t) (rs : List Int)
    (es : List Event) (hlt : w.ref_count < 4294967296)
    (hne : ∀ j, 1 ≤ j → j ≤ n → j % 4294967296 ≠ w.ref_count) :
    run (List.replicate n Call.release) { heap := some w, rets := rs, events := es } =
      some { heap := some { w with
                            ref_count := (w.ref_count + n * 4294967295) % 4294967296 }
             rets := rs ++ List.replicate n 0, events := es } := by
  induction n generalizing w rs with
  | zero =>
    have h0 : w.ref_count % 4294967296 = w.ref_count := by omega
    simp [run, h0]
  | succ n ih =>
    have hw : w.ref_count ≠ 1 := by
      have := hne 1 (by omega) (by omega)
      omega
    have hrel := release_of_ne_one w hlt hw
    have h2 := InterlockedDecrement_lt w.ref_count
    have hne1 : ∀ j, 1 ≤ j → j ≤ n → j % 4294967296 ≠ InterlockedDecrement w.ref_count := by
      intro j hj1 hj2
      have := hne (j + 1) (by omega) (by omega)
      unfold InterlockedDecrement
      omega
    have h1 : (InterlockedDecrement w.ref_count + n * 4294967295) % 4294967296 =
        (w.ref_count + (n + 1) * 4294967295) % 4294967296 := by
      unfold InterlockedDecrement
      omega
    have ih1 := ih { w with ref_count := InterlockedDecrement w.ref_count } (rs ++ [0])
      h2 hne1
    simp only [List.replicate_succ, run, step, hrel, Option.some_bind, List.append_nil]
    rw [ih1]
    simp [h1, List.replicate_succ]


/-! ## Construction -/

theorem ctor_ok (sz : Nat) (g : gc_handle_t) (k : Int) :
    cfx_dialog_handler_ctor sz true g k =
      some { cef_dialog_handler :=
               { base := { size := sz
                           add_ref := FnPtr._cfx_dialog_handler_add_ref
                           release := FnPtr._cfx_dialog_handler_release
                           has_one_ref := FnPtr._cfx_dialog_handler_has_one_ref }
                 on_file_dialog := FnPtr.null }
             ref_count := 1
             gc_handle := g
             wrapper_kind := k
             on_file_dialog := 0 } := by
  simp [cfx_dialog_handler_ctor, calloc_zeroed]

theorem construct_and_run_eq (sz : Nat) (g : gc_handle_t) (k : Int) (cs : List Call)
    (w : cfx_dialog_handler_t) (hw : cfx_dialog_handler_ctor sz true g k = some w) :
    construct_and_run sz g k cs = run cs { heap := some w, rets := [], events := [] } := by
  simp [construct_and_run, hw, Machine.init]

/-- After `n` retains on a fresh wrapper, with `n` a multiple of `2 ^ 32`, the counter is
back at `1` and the very next release frees the record. -/
theorem release_after_wrapped_retains (sz : Nat) (g : gc_handle_t) (k : Int) (n : Nat)
    (hn : n % 4294967296 = 0) :
    construct_and_run sz g k (List.replicate n Call.add_ref ++ [Call.release]) =
      some { heap := none, rets := [1]
             events := [ if k = 0 then Event.cfx_gc_handle_free g
                         else Event.cfx_gc_handle_free_remote g,
                         Event.free ] } := by
  rw [construct_and_run_eq sz g k _ _ (ctor_ok sz g k), run_append,
    run_add_refs n _ [] [] (by simp)]
  have h1 : (1 + n) % 4294967296 = 1 := by omega
  simp only [Option.some_bind, h1, run, step]
  rw [release_of_one _ rfl]
  simp

/-- After `n` retains on a fresh wrapper, with `n` a multiple of `2 ^ 32`, a second release
touches a record that the first one has freed. -/
theorem two_releases_after_wrapped_retains (sz : Nat) (g : gc_handle_t) (k : Int)
    (n : Nat) (hn : n % 4294967296 = 0) (c : Call) (cs : List Call) :
    construct_and_run sz g k
      (List.replicate n Call.add_ref ++ ([Call.release] ++ c :: cs)) = none := by
  have h := release_after_wrapped_retains sz g k n hn
  rw [construct_and_run_eq sz g k _ _ (ctor_ok sz g k)] at h
  rw [construct_and_run_eq sz g k _ _ (ctor_ok sz g k), ← List.append_assoc, run_append, h]
  simp [run_freed]


/-! ## What no call changes -/

theorem release_cases (w : cfx_dialog_handler_t) :
    _cfx_dialog_handler_release w =
        { ret := 1
          events :=
            [ if w.wrapper_kind = 0 then Event.cfx_gc_handle_free w.gc_handle
              else Event.cfx_gc_handle_free_remote w.gc_handle,
              Event.free ]
          heap := none } ∨
      _cfx_dialog_handler_release w =
        { ret := 0, events := []
          heap := some { w with ref_count := InterlockedDecrement w.ref_count } } := by
  by_cases hz : toInt32 (InterlockedDecrement w.ref_count) = 0
  · left
    simp [_cfx_dialog_handler_release, hz]
  · right
    simp [_cfx_dialog_handler_release, hz]

theorem set_callback_frame (w : cfx_dialog_handler_t) (index : Int) (callback : Ptr) :
    (cfx_dialog_handler_set_callback w index callback).ref_count = w.ref_count ∧
    (cfx_dialog_handler_set_callback w index callback).gc_handle = w.gc_handle ∧
    (cfx_dialog_handler_set_callback w index callback).wrapper_kind = w.wrapper_kind ∧
    (cfx_dialog_handler_set_callback w index callback).cef_dialog_handler.base =
      w.cef_dialog_handler.base := by
  unfold cfx_dialog_handler_set_callback
  split <;> simp

theorem set_callback_other_index (w : cfx_dialog_handler_t) (index : Int) (callback : Ptr)
    (h : index ≠ 0) : cfx_dialog_handler_set_callback w index callback = w := by
  simp [cfx_dialog_handler_set_callback, h]

theorem step_add_ref (w : cfx_dialog_handler_t) (rs : List Int) (es : List Event) :
    step { heap := some w, rets := rs, events := es } Call.add_ref =
      some { heap := some (_cfx_dialog_handler_add_ref w), rets := rs, events := es } := rfl

theorem step_release (w : cfx_dialog_handler_t) (rs : List Int) (es : List Event) :
    step { heap := some w, rets := rs, events := es } Call.release =
      some { heap := (_cfx_dialog_handler_release w).heap
             rets := rs ++ [(_cfx_dialog_handler_release w).ret]
             events := es ++ (_cfx_dialog_handler_release w).events } := rfl

theorem step_set_callback (w : cfx_dialog_handler_t) (rs : List Int) (es : List Event)
    (index : Int) (callback : Ptr) :
    step { heap := some w, rets := rs, events := es } (Call.set_callback index callback) =
      some { heap := some (cfx_dialog_handler_set_callback w index callback)
             rets := rs, events := es } := rfl

theorem step_frame (m m1 : Machine) (c : Call) (w w1 : cfx_dialog_handler_t)
    (hstep : step m c = some m1) (hm : m.heap = some w) (hm1 : m1.heap = some w1) :
    w1.gc_handle = w.gc_handle ∧ w1.wrapper_kind = w.wrapper_kind ∧
    w1.cef_dialog_handler.base = w.cef_dialog_handler.base ∧
    ((∀ p, c ≠ Call.set_callback 0 p) →
      w1.on_file_dialog = w.on_file_dialog ∧
      w1.cef_dialog_handler.on_file_dialog = w.cef_dialog_handler.on_file_dialog) := by
  obtain ⟨heap, rs, es⟩ := m
  simp only at hm
  subst hm
  cases c with
  | add_ref =>
    rw [step_add_ref] at hstep
    simp only [Option.some.injEq] at hstep
    subst hstep
    simp only [Option.some.injEq] at hm1
    subst hm1
    simp [_cfx_dialog_handler_add_ref]
  | release =>
    rcases release_cases w with h | h
    · rw [step_release, h] at hstep
      simp only [Option.some.injEq] at hstep
      subst hstep
      simp at hm1
    · rw [step_release, h] at hstep
      simp only [Option.some.injEq] at hstep
      subst hstep
      simp only [Option.some.injEq] at hm1
      subst hm1
      simp
  | set_callback index callback =>
    rw [step_set_callback] at hstep
    simp only [Option.some.injEq] at hstep
    subst hstep
    simp only [Option.some.injEq] at hm1
    subst hm1
    obtain ⟨_, h2, h3, h4⟩ := set_callback_frame w index callback
    refine ⟨h2, h3, h4, ?_⟩
    intro hp
    have hi : index ≠ 0 := by
      intro h0
      exact hp callback (by rw [h0])
    rw [set_callback_other_index w index callback hi]
    exact ⟨rfl, rfl⟩

theorem run_frame (cs : List Call) (m m1 : Machine) (w w1 : cfx_dialog_handler_t)
    (hrun : run cs m = some m1) (hm : m.heap = some w) (hm1 : m1.heap = some w1) :
    w1.gc_handle = w.gc_handle ∧ w1.wrapper_kind = w.wrapper_kind ∧
    w1.cef_dialog_handler.base = w.cef_dialog_handler.base ∧
    ((∀ p, Call.set_callback 0 p ∉ cs) →
      w1.on_file_dialog = w.on_file_dialog ∧
      w1.cef_dialog_handler.on_file_dialog = w.cef_dialog_handler.on_file_dialog) := by
  induction cs generalizing m w with
  | nil =>
    simp only [run, Option.some.injEq] at hrun
    subst hrun
    rw [hm] at hm1
    simp only [Option.some.injEq] at hm1
    subst hm1
    simp
  | cons c cs ih =>
    simp only [run] at hrun
    cases hs : step m c with
    | none => simp [hs] at hrun
    | some m2 =>
      rw [hs] at hrun
      simp only [Option.some_bind] at hrun
      cases hh : m2.heap with
      | none =>
        cases cs with
        | nil =>
          simp only [run, Option.some.injEq] at hrun
          subst hrun
          rw [hh] at hm1
          simp at hm1
        | cons d ds =>
          obtain ⟨heap2, rs2, es2⟩ := m2
          simp only at hh
          subst hh
          rw [run_freed] at hrun
          simp at hrun
      | some w2 =>
        obtain ⟨a1, a2, a3, a4⟩ := step_frame m m2 c w w2 hs hm hh
        obtain ⟨b1, b2, b3, b4⟩ := ih m2 w2 hrun hh
        refine ⟨by rw [b1, a1], by rw [b2, a2], by rw [b3, a3], ?_⟩
        intro hp
        have hc : ∀ p, c ≠ Call.set_callback 0 p := by
          intro p hcp
          exact hp p (by simp [hcp])
        have hcs : ∀ p, Call.set_callback 0 p ∉ cs := by
          intro p hmem
          exact hp p (List.mem_cons_of_mem _ hmem)
        obtain ⟨c1, c2⟩ := a4 hc
        obtain ⟨d1, d2⟩ := b4 hcs
        exact ⟨by rw [d1, c1], by rw [d2, c2]⟩


/-! ## Interleaved retains and releases -/

/-- Along a call sequence started at counter `(1 + d) % 2 ^ 32`, in which every initial
segment holds no more releases than `d` plus its retains and leaves fewer than `2 ^ 32`
references outstanding (`d` plus its retains minus its releases), no release frees the
record, and the counter ends at one plus the outstanding references. -/
theorem run_surplus (cs : List Call) (d : Nat) (w : cfx_dialog_handler_t) (rs : List Int)
    (es : List Event) (hrc : w.ref_count = (1 + d) % 4294967296)
    (hpre : ∀ n, (cs.take n).count Call.release ≤ d + (cs.take n).count Call.add_ref)
    (hsur : ∀ n, d + (cs.take n).count Call.add_ref - (cs.take n).count Call.release <
      4294967296) :
    ∃ w1, run cs { heap := some w, rets := rs, events := es } =
        some { heap := some w1, rets := rs ++ List.replicate (cs.count Call.release) 0
               events := es } ∧
      w1.ref_count =
        (1 + (d + cs.count Call.add_ref - cs.count Call.release)) % 4294967296 := by
  induction cs generalizing d w rs with
  | nil => exact ⟨w, by simp [run], by simpa using hrc⟩
  | cons c cs ih =>
    have htail : ∀ n, ((c :: cs).take (n + 1)).count Call.release ≤
        d + ((c :: cs).take (n + 1)).count Call.add_ref := fun n => hpre (n + 1)
    have hstail : ∀ n, d + ((c :: cs).take (n + 1)).count Call.add_ref -
        ((c :: cs).take (n + 1)).count Call.release < 4294967296 := fun n => hsur (n + 1)
    have hd0 : d < 4294967296 := by
      have := hsur 0
      simpa using this
    cases c with
    | add_ref =>
      simp only [List.take_succ_cons, List.count_cons_self, List.count_cons_of_ne,
        ne_eq, reduceCtorEq, not_false_eq_true] at htail hstail ⊢
      have hrc1 : (_cfx_dialog_handler_add_ref w).ref_count = (1 + (d + 1)) % 4294967296 := by
        simp only [_cfx_dialog_handler_add_ref, InterlockedIncrement, hrc]
        omega
      obtain ⟨w1, h1, h2⟩ := ih (d + 1) (_cfx_dialog_handler_add_ref w) rs hrc1
        (fun n => by have := htail n; omega) (fun n => by have := hstail n; omega)
      refine ⟨w1, ?_, ?_⟩
      · simp only [run, step_add_ref, Option.some_bind]
        exact h1
      · rw [h2]
        omega
    | release =>
      simp only [List.take_succ_cons, List.count_cons_self, List.count_cons_of_ne,
        ne_eq, reduceCtorEq, not_false_eq_true] at htail hstail ⊢
      have hd : 1 ≤ d := by
        have := htail 0
        simp at this
        omega
      have hlt : w.ref_count < 4294967296 := by omega
      have hne : w.ref_count ≠ 1 := by omega
      have hrel := release_of_ne_one w hlt hne
      have hrc1 : ({ w with ref_count := InterlockedDecrement w.ref_count } :
          cfx_dialog_handler_t).ref_count = (1 + (d - 1)) % 4294967296 := by
        simp only [InterlockedDecrement, hrc]
        omega
      obtain ⟨w1, h1, h2⟩ := ih (d - 1) _ (rs ++ [0]) hrc1
        (fun n => by have := htail n; omega)
        (fun n => by have := htail n; have := hstail n; omega)
      refine ⟨w1, ?_, ?_⟩
      · simp only [run, step_release, hrel, Option.some_bind, List.append_nil]
        rw [h1]
        simp [List.replicate_succ]
      · rw [h2]
        omega
    | set_callback index callback =>
      simp only [List.take_succ_cons, List.count_cons_of_ne,
        ne_eq, reduceCtorEq, not_false_eq_true] at htail hstail ⊢
      have hrc1 : (cfx_dialog_handler_set_callback w index callback).ref_count =
          (1 + d) % 4294967296 := by
        rw [(set_callback_frame w index callback).1, hrc]
      obtain ⟨w1, h1, h2⟩ := ih d (cfx_dialog_handler_set_callback w index callback) rs hrc1
        htail hstail
      refine ⟨w1, ?_, h2⟩
      simp only [run, step_set_callback, Option.some_bind]
      exact h1


/-- After `n` retains on a fresh wrapper, with `n` a multiple of `2 ^ 32`, the wrapper is
exactly as constructed: the counter reads `1` again. -/
theorem retains_wrapped (sz : Nat) (g : gc_handle_t) (k : Int) (n : Nat)
    (hn : n % 4294967296 = 0) :
    construct_and_run sz g k (List.replicate n Call.add_ref) =
      some { heap := cfx_dialog_handler_ctor sz true g k, rets := [], events := [] } := by
  rw [construct_and_run_eq sz g k _ _ (ctor_ok sz g k), run_add_refs n _ [] [] (by simp),
    ctor_ok]
  have h1 : (1 + n) % 4294967296 = 1 := by omega
  simp only [h1]

/-- From `2 ^ 32` retains on, the retains-then-releases sequence never completes: one of
the first `N` releases already frees the record and the next release touches it. -/
theorem retain_release_fails_from_wrap (sz : Nat) (g : gc_handle_t) (k : Int) (N : Nat)
    (hN : 4294967296 ≤ N) :
    construct_and_run sz g k
        (List.replicate N Call.add_ref ++ List.replicate (N + 1) Call.release) = none := by
  obtain ⟨j, hj1, hj2, hj3⟩ : ∃ j, j < 4294967296 ∧ j < N ∧
      (1 + N) % 4294967296 = (j + 1) % 4294967296 :=
    ⟨N % 4294967296, by omega, by omega, by omega⟩
  have hsplit : List.replicate (N + 1) Call.release =
      List.replicate j Call.release ++
        ([Call.release] ++ Call.release :: List.replicate (N - j - 1) Call.release) := by
    have hsum : N + 1 = j + (1 + (1 + (N - j - 1))) := by omega
    rw [hsum, List.replicate_add, List.replicate_add, List.replicate_add]
    rfl
  have hne : ∀ i, 1 ≤ i → i ≤ j → i % 4294967296 ≠ (1 + N) % 4294967296 := by
    intro i h1 h2
    omega
  have hback : ((1 + N) % 4294967296 + j * 4294967295) % 4294967296 = 1 := by omega
  rw [construct_and_run_eq sz g k _ _ (ctor_ok sz g k), hsplit, run_append,
    run_add_refs N _ [] [] (by simp), Option.some_bind, run_append,
    run_releases_live j _ [] [] (by simp only; omega) (by simpa using hne),
    Option.some_bind, hback, run_append, run_single, step_release,
    release_of_one _ rfl, Option.some_bind, run_freed]

/-! ## The trampoline -/

/-- With a managed function installed, and a non-null object behind every release the
managed side asks for, the trampoline returns: it makes the managed call, then the
requested releases in order (browser first), and hands back the managed result. -/
theorem on_file_dialog_returns (managed : Ptr → ManagedArgs → ManagedOut)
    (self : cfx_dialog_handler_t) (browser : Ptr) (mode : Int)
    (title default_file_path : Option cef_string_t) (accept_filters : Ptr)
    (selected_accept_filter : Int) (callback : Ptr)
    (hslot : self.on_file_dialog ≠ 0)
    (hb : (managed self.on_file_dialog (on_file_dialog_args self browser mode title
        default_file_path accept_filters selected_accept_filter callback)).browser_release
          ≠ 0 → browser ≠ 0)
    (hc : (managed self.on_file_dialog (on_file_dialog_args self browser mode title
        default_file_path accept_filters selected_accept_filter callback)).callback_release
          ≠ 0 → callback ≠ 0) :
    cfx_dialog_handler_on_file_dialog managed self browser mode title default_file_path
        accept_filters selected_accept_filter callback =
      some
        { ret := (managed self.on_file_dialog (on_file_dialog_args self browser mode title
            default_file_path accept_filters selected_accept_filter callback)).__retval
          events :=
            [Event.managed_call self.on_file_dialog (on_file_dialog_args self browser mode
              title default_file_path accept_filters selected_accept_filter callback)] ++
            (if (managed self.on_file_dialog (on_file_dialog_args self browser mode title
                default_file_path accept_filters selected_accept_filter
                callback)).browser_release ≠ 0
              then [Event.base_release browser] else []) ++
            (if (managed self.on_file_dialog (on_file_dialog_args self browser mode title
                default_file_path accept_filters selected_accept_filter
                callback)).callback_release ≠ 0
              then [Event.base_release callback] else []) } := by
  unfold cfx_dialog_handler_on_file_dialog
  simp only [hslot, if_false]
  generalize managed self.on_file_dialog (on_file_dialog_args self browser mode title
    default_file_path accept_filters selected_accept_filter callback) = out at hb hc ⊢
  by_cases h1 : out.browser_release = 0 <;> by_cases h2 : out.callback_release = 0
  · simp [h1, h2]
  · have := hc h2
    simp [h1, h2, this]
  · have := hb h1
    simp [h1, h2, this]
  · have hb1 := hb h1
    have hc1 := hc h2
    simp [h1, h2, hb1, hc1]

/-! ## The claims -/

/-- C1 (amended): for every `N < 2 ^ 32`, starting from a wrapper freshly built by
`cfx_dialog_handler_ctor`, `N` calls of `_cfx_dialog_handler_add_ref` followed by `N`
calls of `_cfx_dialog_handler_release` return `0` each time, free nothing and leave the
wrapper as constructed; one more release returns `1` and frees the managed-side handle
(through the path chosen by `wrapper_kind`) and the record, each exactly once. -/
theorem retain_release_frees_once (sz : Nat) (g : gc_handle_t) (k : Int) (N : Nat)
    (hN : N < 4294967296) :
    construct_and_run sz g k
        (List.replicate N Call.add_ref ++ List.replicate N Call.release) =
      some { heap := cfx_dialog_handler_ctor sz true g k
             rets := List.replicate N 0, events := [] } ∧
    construct_and_run sz g k
        (List.replicate N Call.add_ref ++ List.replicate (N + 1) Call.release) =
      some { heap := none, rets := List.replicate N 0 ++ [1]
             events := [ if k = 0 then Event.cfx_gc_handle_free g
                         else Event.cfx_gc_handle_free_remote g,
                         Event.free ] } := by
  have hne : ∀ j, 1 ≤ j → j ≤ N → j % 4294967296 ≠ (1 + N) % 4294967296 := by
    intro j h1 h2
    omega
  have hback : ((1 + N) % 4294967296 + N * 4294967295) % 4294967296 = 1 := by omega
  have hlive : run (List.replicate N Call.add_ref ++ List.replicate N Call.release)
      { heap := cfx_dialog_handler_ctor sz true g k, rets := [], events := [] } =
      some { heap := cfx_dialog_handler_ctor sz true g k
             rets := List.replicate N 0, events := [] } := by
    rw [ctor_ok, run_append, run_add_refs N _ [] [] (by simp)]
    simp only [Option.some_bind]
    rw [run_releases_live N _ [] [] (by simp only; omega) (by simpa using hne)]
    simp only [hback, List.nil_append]
  constructor
  · rw [construct_and_run_eq sz g k _ _ (ctor_ok sz g k), ← ctor_ok]
    exact hlive
  · rw [construct_and_run_eq sz g k _ _ (ctor_ok sz g k), ← ctor_ok,
      List.replicate_succ', ← List.append_assoc, run_append, hlive, ctor_ok]
    simp only [Option.some_bind, run, step_release]
    rw [release_of_one _ rfl]
    simp

/-- The hypothesis of `retain_release_frees_once` holds at `N = 2`: two retains and
three releases on a fresh local wrapper. -/
theorem retain_release_frees_once_witness :
    (2 : Nat) < 4294967296 ∧
    construct_and_run 40 7 0
        [Call.add_ref, Call.add_ref, Call.release, Call.release, Call.release] =
      some { heap := none, rets := [0, 0, 1]
             events := [Event.cfx_gc_handle_free 7, Event.free] } :=
  ⟨by decide, (retain_release_frees_once 40 7 0 2 (by decide)).2⟩

/-- C1 fails at `N = 2 ^ 32`: after `4294967296` retains the 32-bit counter is back at
`1`, so the first release already returns `1` and frees the handle and the record, and
the remaining releases of the `N + 1` touch a freed record. -/
theorem retain_release_wraps_counterexample :
    construct_and_run 40 7 0 (List.replicate 4294967296 Call.add_ref ++ [Call.release]) =
      some { heap := none, rets := [1]
             events := [Event.cfx_gc_handle_free 7, Event.free] } ∧
    construct_and_run 40 7 0
        (List.replicate 4294967296 Call.add_ref ++
          List.replicate (4294967296 + 1) Call.release) = none := by
  have hsplit : List.replicate (4294967296 + 1) Call.release =
      [Call.release] ++ Call.release :: List.replicate 4294967295 Call.release := by
    rw [List.replicate_succ, List.replicate_succ]
    rfl
  rw [hsplit]
  exact ⟨release_after_wrapped_retains 40 7 0 4294967296 (by decide),
    two_releases_after_wrapped_retains 40 7 0 4294967296 (by decide) _ _⟩

/-- C2: on every wrapper state (the counter being a 32-bit unsigned value),
`_cfx_dialog_handler_release` returns `1` exactly when it deallocates, which happens
exactly when the count before the call was `1` (the decrement then stores `0`); for every
other prior count it returns `0`, makes no outgoing call, and leaves the record in place
with the count decremented by one (modulo `2 ^ 32`, so `0` becomes `4294967295`) and
`gc_handle`, `wrapper_kind`, the callback slot and the native table unchanged. -/
theorem release_decrements_and_reports_free (w : cfx_dialog_handler_t)
    (hlt : w.ref_count < 4294967296) :
    ((_cfx_dialog_handler_release w).ret = 1 ↔ (_cfx_dialog_handler_release w).heap = none) ∧
    ((_cfx_dialog_handler_release w).heap = none ↔ w.ref_count = 1) ∧
    ((_cfx_dialog_handler_release w).heap = none ↔
      Event.free ∈ (_cfx_dialog_handler_release w).events) ∧
    (w.ref_count = 1 → InterlockedDecrement w.ref_count = 0) ∧
    (w.ref_count ≠ 1 →
      (_cfx_dialog_handler_release w).ret = 0 ∧
      (_cfx_dialog_handler_release w).events = [] ∧
      ∃ w1, (_cfx_dialog_handler_release w).heap = some w1 ∧
        w1.ref_count = InterlockedDecrement w.ref_count ∧
        (w1.ref_count + 1) % 4294967296 = w.ref_count ∧
        (0 < w.ref_count → w1.ref_count + 1 = w.ref_count) ∧
        w1.gc_handle = w.gc_handle ∧
        w1.wrapper_kind = w.wrapper_kind ∧
        w1.on_file_dialog = w.on_file_dialog ∧
        w1.cef_dialog_handler = w.cef_dialog_handler) := by
  by_cases h : w.ref_count = 1
  · rw [release_of_one w h]
    have h0 : InterlockedDecrement 1 = 0 :=
      (InterlockedDecrement_eq_zero_iff 1 (by omega)).mpr rfl
    simp [h, h0]
  · rw [release_of_ne_one w hlt h]
    have h1 : (InterlockedDecrement w.ref_count + 1) % 4294967296 = w.ref_count := by
      unfold InterlockedDecrement
      omega
    have h2 : 0 < w.ref_count → InterlockedDecrement w.ref_count + 1 = w.ref_count := by
      unfold InterlockedDecrement
      omega
    simp [h, h1]
    exact h2

/-- The hypothesis of `release_decrements_and_reports_free` holds for a wrapper with
count `3`: the release returns `0` and leaves count `2`. -/
theorem release_decrements_and_reports_free_witness :
    (3 : Nat) < 4294967296 ∧
    (_cfx_dialog_handler_release { calloc_zeroed with ref_count := 3 }).ret = 0 ∧
    (_cfx_dialog_handler_release { calloc_zeroed with ref_count := 3 }).events = [] :=
  ⟨by decide,
   ((release_decrements_and_reports_free { calloc_zeroed with ref_count := 3 }
      (by decide)).2.2.2.2 (by decide)).1,
   ((release_decrements_and_reports_free { calloc_zeroed with ref_count := 3 }
      (by decide)).2.2.2.2 (by decide)).2.1⟩

/-- C3: in every state reached from `cfx_dialog_handler_ctor gc_handle wrapper_kind` by
calls of add_ref, release and set_callback, a release on count `1` frees the handle
stored at construction exactly once: through `cfx_gc_handle_free` if `wrapper_kind` is
`0`, through `cfx_gc_handle_free_remote` for every other value, never through both, and
then frees the record. -/
theorem release_frees_handle_by_kind (sz : Nat) (g : gc_handle_t) (k : Int)
    (cs : List Call) (m : Machine) (w : cfx_dialog_handler_t)
    (hrun : construct_and_run sz g k cs = some m) (hheap : m.heap = some w)
    (hrc : w.ref_count = 1) :
    w.gc_handle = g ∧ w.wrapper_kind = k ∧
    _cfx_dialog_handler_release w =
      { ret := 1
        events := [ if k = 0 then Event.cfx_gc_handle_free g
                    else Event.cfx_gc_handle_free_remote g,
                    Event.free ]
        heap := none } ∧
    (k = 0 → (_cfx_dialog_handler_release w).events =
      [Event.cfx_gc_handle_free g, Event.free]) ∧
    (k ≠ 0 → (_cfx_dialog_handler_release w).events =
      [Event.cfx_gc_handle_free_remote g, Event.free]) ∧
    (∀ h, (_cfx_dialog_handler_release w).events.count (Event.cfx_gc_handle_free h) +
      (_cfx_dialog_handler_release w).events.count (Event.cfx_gc_handle_free_remote h) =
        if h = g then 1 else 0) := by
  rw [construct_and_run_eq sz g k cs _ (ctor_ok sz g k)] at hrun
  obtain ⟨hg, hk, -, -⟩ := run_frame cs _ m _ w hrun rfl hheap
  simp only at hg hk
  rw [release_of_one w hrc, hg, hk]
  refine ⟨rfl, rfl, rfl, ?_, ?_, ?_⟩
  · intro h0
    simp [h0]
  · intro h0
    simp [h0]
  · intro h
    by_cases h0 : k = 0 <;> by_cases h1 : h = g <;> simp [h0, h1, List.count_cons]


/-- The hypotheses of `release_frees_handle_by_kind` hold after a retain, a callback
registration and a release on a fresh remote wrapper (handle `7`, kind `3`): the next
release frees handle `7` through the remote path. -/
theorem release_frees_handle_by_kind_witness :
    construct_and_run 40 7 3 [Call.add_ref, Call.set_callback 0 99, Call.release] =
      some { heap := some (cfx_dialog_handler_set_callback
                      { calloc_zeroed with
                        cef_dialog_handler.base :=
                          { size := 40
                            add_ref := FnPtr._cfx_dialog_handler_add_ref
                            release := FnPtr._cfx_dialog_handler_release
                            has_one_ref := FnPtr._cfx_dialog_handler_has_one_ref }
                        ref_count := 1, gc_handle := 7, wrapper_kind := 3 } 0 99)
             rets := [0], events := [] } ∧
    (_cfx_dialog_handler_release
        (cfx_dialog_handler_set_callback
          { calloc_zeroed with
            cef_dialog_handler.base :=
              { size := 40
                add_ref := FnPtr._cfx_dialog_handler_add_ref
                release := FnPtr._cfx_dialog_handler_release
                has_one_ref := FnPtr._cfx_dialog_handler_has_one_ref }
            ref_count := 1, gc_handle := 7, wrapper_kind := 3 } 0 99)).events =
      [Event.cfx_gc_handle_free_remote 7, Event.free] :=
  ⟨by decide,
   (release_frees_handle_by_kind 40 7 3
      [Call.add_ref, Call.set_callback 0 99, Call.release]
      { heap := some (cfx_dialog_handler_set_callback
                  { calloc_zeroed with
                    cef_dialog_handler.base :=
                      { size := 40
                        add_ref := FnPtr._cfx_dialog_handler_add_ref
                        release := FnPtr._cfx_dialog_handler_release
                        has_one_ref := FnPtr._cfx_dialog_handler_has_one_ref }
                    ref_count := 1, gc_handle := 7, wrapper_kind := 3 } 0 99)
        rets := [0], events := [] }
      _ (by decide) rfl (by decide)).2.2.2.2.1 (by decide)⟩

/-- C4 (amended): for every wrapper state `_cfx_dialog_handler_has_one_ref` returns `1`
if and only if `ref_count` equals `1` and `0` otherwise, and it does not modify the
wrapper; and after any sequence of calls on a fresh wrapper holding `a` retains and `r`
releases (registrations may be interleaved), in which no initial segment holds more
releases than retains and every initial segment leaves fewer than `2 ^ 32` references
outstanding (its retains minus its releases), the record is still allocated, every
release has returned `0`, nothing has been freed, and the query returns `1` iff `a = r`. -/
theorem has_one_ref_iff_single_reference (sz : Nat) (g : gc_handle_t) (k : Int)
    (cs : List Call)
    (hpre : ∀ n, (cs.take n).count Call.release ≤ (cs.take n).count Call.add_ref)
    (hsur : ∀ n, (cs.take n).count Call.add_ref - (cs.take n).count Call.release <
      4294967296) :
    (∀ w : cfx_dialog_handler_t,
      ((_cfx_dialog_handler_has_one_ref w).1 = 1 ↔ w.ref_count = 1) ∧
      ((_cfx_dialog_handler_has_one_ref w).1 = 0 ↔ w.ref_count ≠ 1) ∧
      (_cfx_dialog_handler_has_one_ref w).2 = w) ∧
    ∃ w1, construct_and_run sz g k cs =
        some { heap := some w1, rets := List.replicate (cs.count Call.release) 0
               events := [] } ∧
      ((_cfx_dialog_handler_has_one_ref w1).1 = 1 ↔
        cs.count Call.add_ref = cs.count Call.release) := by
  constructor
  · intro w
    unfold _cfx_dialog_handler_has_one_ref
    by_cases h : w.ref_count = 1 <;> simp [h]
  · have hall := hpre cs.length
    have hout := hsur cs.length
    simp only [List.take_length] at hall hout
    obtain ⟨w1, h1, h2⟩ := run_surplus cs 0 _ [] [] (rfl :
      ({ cef_dialog_handler :=
           { base := { size := sz
                       add_ref := FnPtr._cfx_dialog_handler_add_ref
                       release := FnPtr._cfx_dialog_handler_release
                       has_one_ref := FnPtr._cfx_dialog_handler_has_one_ref }
             on_file_dialog := FnPtr.null }
         ref_count := 1, gc_handle := g, wrapper_kind := k, on_file_dialog := 0 } :
        cfx_dialog_handler_t).ref_count = (1 + 0) % 4294967296)
      (fun n => by have := hpre n; omega) (fun n => by have := hsur n; omega)
    rw [Nat.zero_add] at h2
    refine ⟨w1, ?_, ?_⟩
    · rw [construct_and_run_eq sz g k cs _ (ctor_ok sz g k), h1]
      simp
    · unfold _cfx_dialog_handler_has_one_ref
      simp only [h2]
      constructor
      · intro h
        by_contra hne
        have h3 : (1 + (List.count Call.add_ref cs - List.count Call.release cs)) %
            4294967296 ≠ 1 := by omega
        simp [h3] at h
      · intro h
        have h3 : (1 + (List.count Call.add_ref cs - List.count Call.release cs)) %
            4294967296 = 1 := by omega
        simp [h3]

/-- The hypotheses of `has_one_ref_iff_single_reference` hold for retain, retain,
release, release on a fresh wrapper: the query then returns `1`. -/
theorem has_one_ref_iff_single_reference_witness :
    ∃ w1, construct_and_run 40 7 0
        [Call.add_ref, Call.add_ref, Call.release, Call.release] =
        some { heap := some w1, rets := [0, 0], events := [] } ∧
      ((_cfx_dialog_handler_has_one_ref w1).1 = 1 ↔ (2 : Nat) = 2) :=
  (has_one_ref_iff_single_reference 40 7 0
    [Call.add_ref, Call.add_ref, Call.release, Call.release]
    (fun n => by
      rcases n with _ | _ | _ | _ | _ | n <;> simp [List.count_cons])
    (fun n => by
      rcases n with _ | _ | _ | _ | _ | n <;> simp [List.count_cons])).2


/-- C4 fails as stated, in two ways.  With `a = r = 1` and the release first, the release
frees the fresh wrapper and the retain that follows touches a freed record, so there is
no wrapper left to query.  With `a = 2 ^ 32` retains and `r = 0` releases the 32-bit
counter is back at `1`, so the query returns `1` although `a ≠ r`. -/
theorem has_one_ref_sequence_counterexample :
    (List.count Call.release [Call.release, Call.add_ref] ≤
        List.count Call.add_ref [Call.release, Call.add_ref] ∧
      construct_and_run 40 7 0 [Call.release, Call.add_ref] = none) ∧
    (List.count Call.release (List.replicate 4294967296 Call.add_ref) = 0 ∧
      List.count Call.add_ref (List.replicate 4294967296 Call.add_ref) = 4294967296 ∧
      construct_and_run 40 7 0 (List.replicate 4294967296 Call.add_ref) =
        some { heap := cfx_dialog_handler_ctor 40 true 7 0, rets := [], events := [] } ∧
      (cfx_dialog_handler_ctor 40 true 7 0).map
        (fun w => (_cfx_dialog_handler_has_one_ref w).1) = some 1) := by
  refine ⟨⟨by decide, by decide⟩, ?_, ?_, ?_, ?_⟩
  · rw [List.count_replicate]
    rfl
  · rw [List.count_replicate_self]
  · exact retains_wrapped 40 7 0 4294967296 (by decide)
  · decide


/-- C5: in every call of `cfx_dialog_handler_on_file_dialog` (managed function installed,
a non-null object behind every requested release) the call returns and its first outgoing
call is the managed callback; a null `title` reaches it as a null pointer with length `0`,
a null `default_file_path` likewise, and each buffer is handled on its own: a non-null one
is passed by its `str` pointer whatever the other one is. -/
theorem null_text_buffers_pass_null (managed : Ptr → ManagedArgs → ManagedOut)
    (self : cfx_dialog_handler_t) (browser : Ptr) (mode : Int)
    (title default_file_path : Option cef_string_t) (accept_filters : Ptr)
    (selected_accept_filter : Int) (callback : Ptr)
    (hslot : self.on_file_dialog ≠ 0)
    (hb : (managed self.on_file_dialog (on_file_dialog_args self browser mode title
        default_file_path accept_filters selected_accept_filter callback)).browser_release
          ≠ 0 → browser ≠ 0)
    (hc : (managed self.on_file_dialog (on_file_dialog_args self browser mode title
        default_file_path accept_filters selected_accept_filter callback)).callback_release
          ≠ 0 → callback ≠ 0) :
    ∃ r, cfx_dialog_handler_on_file_dialog managed self browser mode title
          default_file_path accept_filters selected_accept_filter callback = some r ∧
      r.events.head? = some (Event.managed_call self.on_file_dialog
        (on_file_dialog_args self browser mode title default_file_path accept_filters
          selected_accept_filter callback)) ∧
      (title = none →
        (on_file_dialog_args self browser mode title default_file_path accept_filters
          selected_accept_filter callback).title_str = 0 ∧
        (on_file_dialog_args self browser mode title default_file_path accept_filters
          selected_accept_filter callback).title_length = 0) ∧
      (default_file_path = none →
        (on_file_dialog_args self browser mode title default_file_path accept_filters
          selected_accept_filter callback).default_file_path_str = 0 ∧
        (on_file_dialog_args self browser mode title default_file_path accept_filters
          selected_accept_filter callback).default_file_path_length = 0) ∧
      (∀ t, title = some t →
        (on_file_dialog_args self browser mode title default_file_path accept_filters
          selected_accept_filter callback).title_str = t.str) ∧
      (∀ d, default_file_path = some d →
        (on_file_dialog_args self browser mode title default_file_path accept_filters
          selected_accept_filter callback).default_file_path_str = d.str) := by
  refine ⟨_, on_file_dialog_returns managed self browser mode title default_file_path
    accept_filters selected_accept_filter callback hslot hb hc, ?_, ?_, ?_, ?_, ?_⟩
  · simp
  · intro h
    subst h
    exact ⟨rfl, rfl⟩
  · intro h
    subst h
    exact ⟨rfl, rfl⟩
  · intro t h
    subst h
    rfl
  · intro d h
    subst h
    rfl

/-- The hypotheses of `null_text_buffers_pass_null` hold for a call with a null title and
a two-element path on a wrapper whose managed slot holds `99`: the managed callback gets
title pointer `0`. -/
theorem null_text_buffers_pass_null_witness :
    (on_file_dialog_args { calloc_zeroed with ref_count := 1, on_file_dialog := 99 }
      5 0 none (some { str := 11, length := 2 }) 0 0 6).title_str = 0 ∧
    (on_file_dialog_args { calloc_zeroed with ref_count := 1, on_file_dialog := 99 }
      5 0 none (some { str := 11, length := 2 }) 0 0 6).title_length = 0 := by
  obtain ⟨_, _, _, h, _⟩ := null_text_buffers_pass_null
    (fun _ _ => { __retval := 1, browser_release := 1, callback_release := 0 })
    { calloc_zeroed with ref_count := 1, on_file_dialog := 99 }
    5 0 none (some { str := 11, length := 2 }) 0 0 6 (by decide) (by decide) (by decide)
  exact h rfl

/-- C6: in every call of `cfx_dialog_handler_on_file_dialog` (managed function installed,
a non-null object behind every requested release) the managed callback is invoked exactly
once, with the wrapper's `gc_handle`; when it has written result `r`, browser flag `fb`
and completion-callback flag `fc`, the trampoline returns `r`, calls the browser's
`base.release` once if `fb` is non-zero and not at all if it is zero, and then the
completion callback's `base.release` once if `fc` is non-zero and not at all if it is
zero; neither decision looks at the other flag or at `r`. -/
theorem trampoline_release_handshake (managed : Ptr → ManagedArgs → ManagedOut)
    (self : cfx_dialog_handler_t) (browser : Ptr) (mode : Int)
    (title default_file_path : Option cef_string_t) (accept_filters : Ptr)
    (selected_accept_filter : Int) (callback : Ptr)
    (hslot : self.on_file_dialog ≠ 0)
    (hb : (managed self.on_file_dialog (on_file_dialog_args self browser mode title
        default_file_path accept_filters selected_accept_filter callback)).browser_release
          ≠ 0 → browser ≠ 0)
    (hc : (managed self.on_file_dialog (on_file_dialog_args self browser mode title
        default_file_path accept_filters selected_accept_filter callback)).callback_release
          ≠ 0 → callback ≠ 0) :
    cfx_dialog_handler_on_file_dialog managed self browser mode title default_file_path
        accept_filters selected_accept_filter callback =
      some
        { ret := (managed self.on_file_dialog (on_file_dialog_args self browser mode title
            default_file_path accept_filters selected_accept_filter callback)).__retval
          events :=
            [Event.managed_call self.on_file_dialog (on_file_dialog_args self browser mode
              title default_file_path accept_filters selected_accept_filter callback)] ++
            (if (managed self.on_file_dialog (on_file_dialog_args self browser mode title
                default_file_path accept_filters selected_accept_filter
                callback)).browser_release ≠ 0
              then [Event.base_release browser] else []) ++
            (if (managed self.on_file_dialog (on_file_dialog_args self browser mode title
                default_file_path accept_filters selected_accept_filter
                callback)).callback_release ≠ 0
              then [Event.base_release callback] else []) } ∧
    (on_file_dialog_args self browser mode title default_file_path accept_filters
      selected_accept_filter callback).self = self.gc_handle ∧
    (on_file_dialog_args self browser mode title default_file_path accept_filters
      selected_accept_filter callback).browser = browser ∧
    (on_file_dialog_args self browser mode title default_file_path accept_filters
      selected_accept_filter callback).callback = callback :=
  ⟨on_file_dialog_returns managed self browser mode title default_file_path
    accept_filters selected_accept_filter callback hslot hb hc, rfl, rfl, rfl⟩

/-- The hypotheses of `trampoline_release_handshake` hold for a managed function that
writes result `1`, browser flag `1` and callback flag `0`: the trampoline returns `1` and
releases the browser only. -/
theorem trampoline_release_handshake_witness :
    cfx_dialog_handler_on_file_dialog
        (fun _ _ => { __retval := 1, browser_release := 1, callback_release := 0 })
        { calloc_zeroed with ref_count := 1, gc_handle := 7, on_file_dialog := 99 }
        5 0 none none 0 0 6 =
      some
        { ret := 1
          events :=
            [ Event.managed_call 99
                { self := 7, browser := 5, mode := 0, title_str := 0, title_length := 0
                  default_file_path_str := 0, default_file_path_length := 0
                  accept_filters := 0, selected_accept_filter := 0, callback := 6 },
              Event.base_release 5 ] } :=
  (trampoline_release_handshake
    (fun _ _ => { __retval := 1, browser_release := 1, callback_release := 0 })
    { calloc_zeroed with ref_count := 1, gc_handle := 7, on_file_dialog := 99 }
    5 0 none none 0 0 6 (by decide) (by decide) (by decide)).1

/-- C7: `cfx_dialog_handler_set_callback` with index `0` stores the pointer `p` in the
managed slot and puts into the native slot `on_file_dialog` null if `p` is null and
`cfx_dialog_handler_on_file_dialog` otherwise; so with a null pointer both slots are
null and the trampoline is not in the table, and after any such call the native slot is
non-null if and only if the managed slot is non-null. -/
theorem set_callback_installs_or_clears (w : cfx_dialog_handler_t) (p : Ptr) :
    (cfx_dialog_handler_set_callback w 0 p).on_file_dialog = p ∧
    (cfx_dialog_handler_set_callback w 0 p).cef_dialog_handler.on_file_dialog =
      (if p = 0 then FnPtr.null else FnPtr.cfx_dialog_handler_on_file_dialog) ∧
    (cfx_dialog_handler_set_callback w 0 0).on_file_dialog = 0 ∧
    (cfx_dialog_handler_set_callback w 0 0).cef_dialog_handler.on_file_dialog =
      FnPtr.null ∧
    ((cfx_dialog_handler_set_callback w 0 p).cef_dialog_handler.on_file_dialog =
      FnPtr.cfx_dialog_handler_on_file_dialog ↔ p ≠ 0) ∧
    ((cfx_dialog_handler_set_callback w 0 p).cef_dialog_handler.on_file_dialog ≠
      FnPtr.null ↔ (cfx_dialog_handler_set_callback w 0 p).on_file_dialog ≠ 0) := by
  unfold cfx_dialog_handler_set_callback
  by_cases hp : p = 0 <;> simp [hp]

/-- C8: `cfx_dialog_handler_ctor` returns null when `calloc` fails; otherwise it returns
a wrapper with `ref_count = 1`, the given `gc_handle` and `wrapper_kind` (so
`cfx_dialog_handler_get_gc_handle` gives back the handle passed in), the three lifetime
functions in the base table, `base.size` equal to `sizeof(cef_dialog_handler_t)`, and
both `on_file_dialog` slots null; the two slots stay null along every call sequence that
holds no `set_callback` with index `0`. -/
theorem ctor_builds_fresh_wrapper (sz : Nat) (g : gc_handle_t) (k : Int) :
    cfx_dialog_handler_ctor sz false g k = none ∧
    ∃ w, cfx_dialog_handler_ctor sz true g k = some w ∧
      w.ref_count = 1 ∧ w.gc_handle = g ∧ w.wrapper_kind = k ∧
      cfx_dialog_handler_get_gc_handle w = g ∧
      w.cef_dialog_handler.base.add_ref = FnPtr._cfx_dialog_handler_add_ref ∧
      w.cef_dialog_handler.base.release = FnPtr._cfx_dialog_handler_release ∧
      w.cef_dialog_handler.base.has_one_ref = FnPtr._cfx_dialog_handler_has_one_ref ∧
      w.cef_dialog_handler.base.size = sz ∧
      w.on_file_dialog = 0 ∧
      w.cef_dialog_handler.on_file_dialog = FnPtr.null ∧
      ∀ (cs : List Call) (m : Machine) (w1 : cfx_dialog_handler_t),
        (∀ p, Call.set_callback 0 p ∉ cs) → construct_and_run sz g k cs = some m →
        m.heap = some w1 →
        w1.on_file_dialog = 0 ∧ w1.cef_dialog_handler.on_file_dialog = FnPtr.null := by
  refine ⟨by simp [cfx_dialog_handler_ctor], _, ctor_ok sz g k, rfl, rfl, rfl, rfl, rfl,
    rfl, rfl, rfl, rfl, rfl, ?_⟩
  intro cs m w1 hcs hrun hheap
  rw [construct_and_run_eq sz g k cs _ (ctor_ok sz g k)] at hrun
  obtain ⟨-, -, -, h⟩ := run_frame cs _ m _ w1 hrun rfl hheap
  exact h hcs

/-- C9 (amended): in every call of `cfx_dialog_handler_on_file_dialog` with a non-null
`title` (respectively `default_file_path`) buffer, the managed callback receives that
buffer's `str` pointer together with the buffer's `length` converted to `int`; the value
passed equals the length field exactly when the length is below `2 ^ 31`. -/
theorem text_length_passed_iff_fits_int (managed : Ptr → ManagedArgs → ManagedOut)
    (self : cfx_dialog_handler_t) (browser : Ptr) (mode : Int)
    (title default_file_path : Option cef_string_t) (accept_filters : Ptr)
    (selected_accept_filter : Int) (callback : Ptr)
    (hslot : self.on_file_dialog ≠ 0)
    (hb : (managed self.on_file_dialog (on_file_dialog_args self browser mode title
        default_file_path accept_filters selected_accept_filter callback)).browser_release
          ≠ 0 → browser ≠ 0)
    (hc : (managed self.on_file_dialog (on_file_dialog_args self browser mode title
        default_file_path accept_filters selected_accept_filter callback)).callback_release
          ≠ 0 → callback ≠ 0) :
    ∃ r, cfx_dialog_handler_on_file_dialog managed self browser mode title
          default_file_path accept_filters selected_accept_filter callback = some r ∧
      r.events.head? = some (Event.managed_call self.on_file_dialog
        (on_file_dialog_args self browser mode title default_file_path accept_filters
          selected_accept_filter callback)) ∧
      (∀ t, title = some t →
        (on_file_dialog_args self browser mode title default_file_path accept_filters
          selected_accept_filter callback).title_str = t.str ∧
        (on_file_dialog_args self browser mode title default_file_path accept_filters
          selected_accept_filter callback).title_length = toInt32 t.length ∧
        ((on_file_dialog_args self browser mode title default_file_path accept_filters
          selected_accept_filter callback).title_length = (t.length : Int) ↔
            t.length < 2147483648)) ∧
      (∀ d, default_file_path = some d →
        (on_file_dialog_args self browser mode title default_file_path accept_filters
          selected_accept_filter callback).default_file_path_str = d.str ∧
        (on_file_dialog_args self browser mode title default_file_path accept_filters
          selected_accept_filter callback).default_file_path_length = toInt32 d.length ∧
        ((on_file_dialog_args self browser mode title default_file_path accept_filters
          selected_accept_filter callback).default_file_path_length = (d.length : Int) ↔
            d.length < 2147483648)) := by
  refine ⟨_, on_file_dialog_returns managed self browser mode title default_file_path
    accept_filters selected_accept_filter callback hslot hb hc, ?_, ?_, ?_⟩
  · simp
  · intro t h
    subst h
    exact ⟨rfl, rfl, toInt32_eq_self_iff t.length⟩
  · intro d h
    subst h
    exact ⟨rfl, rfl, toInt32_eq_self_iff d.length⟩

/-- The hypotheses of `text_length_passed_iff_fits_int` hold for a call with a
three-element title at address `11`: the managed callback gets length `3`. -/
theorem text_length_passed_iff_fits_int_witness :
    (on_file_dialog_args { calloc_zeroed with ref_count := 1, on_file_dialog := 99 }
      5 0 (some { str := 11, length := 3 }) none 0 0 6).title_str = 11 ∧
    (on_file_dialog_args { calloc_zeroed with ref_count := 1, on_file_dialog := 99 }
      5 0 (some { str := 11, length := 3 }) none 0 0 6).title_length = ((3 : Nat) : Int) := by
  obtain ⟨_, _, _, h, _⟩ := text_length_passed_iff_fits_int
    (fun _ _ => { __retval := 1, browser_release := 0, callback_release := 1 })
    { calloc_zeroed with ref_count := 1, on_file_dialog := 99 }
    5 0 (some { str := 11, length := 3 }) none 0 0 6 (by decide) (by decide) (by decide)
  exact ⟨(h _ rfl).1, (h _ rfl).2.2.mpr (by decide)⟩

/-- C9 fails for a title of `2 ^ 31` elements: the `int` handed to the managed callback
is `-2147483648`, not the buffer's length. -/
theorem text_length_truncated_counterexample :
    cfx_dialog_handler_on_file_dialog
        (fun _ _ => { __retval := 1, browser_release := 0, callback_release := 0 })
        { calloc_zeroed with ref_count := 1, gc_handle := 7, on_file_dialog := 99 }
        5 0 (some { str := 11, length := 2147483648 }) none 0 0 6 =
      some
        { ret := 1
          events :=
            [ Event.managed_call 99
                { self := 7, browser := 5, mode := 0, title_str := 11
                  title_length := -2147483648
                  default_file_path_str := 0, default_file_path_length := 0
                  accept_filters := 0, selected_accept_filter := 0, callback := 6 } ] } ∧
    (-2147483648 : Int) ≠ ((2147483648 : Nat) : Int) := by
  constructor
  · decide
  · decide

/-- C10: `cfx_dialog_handler_set_callback` never changes `ref_count`, `gc_handle`,
`wrapper_kind` or the base table (size and the three lifetime function pointers), for
any index and any callback pointer; for every index other than `0` it returns the
wrapper unchanged, both `on_file_dialog` slots included, and reports nothing. -/
theorem set_callback_leaves_lifetime_state (w : cfx_dialog_handler_t) (index : Int)
    (callback : Ptr) :
    (cfx_dialog_handler_set_callback w index callback).ref_count = w.ref_count ∧
    (cfx_dialog_handler_set_callback w index callback).gc_handle = w.gc_handle ∧
    (cfx_dialog_handler_set_callback w index callback).wrapper_kind = w.wrapper_kind ∧
    (cfx_dialog_handler_set_callback w index callback).cef_dialog_handler.base.add_ref =
      w.cef_dialog_handler.base.add_ref ∧
    (cfx_dialog_handler_set_callback w index callback).cef_dialog_handler.base.release =
      w.cef_dialog_handler.base.release ∧
    (cfx_dialog_handler_set_callback w index callback).cef_dialog_handler.base.has_one_ref =
      w.cef_dialog_handler.base.has_one_ref ∧
    (cfx_dialog_handler_set_callback w index callback).cef_dialog_handler.base.size =
      w.cef_dialog_handler.base.size ∧
    (index ≠ 0 → cfx_dialog_handler_set_callback w index callback = w) := by
  obtain ⟨h1, h2, h3, h4⟩ := set_callback_frame w index callback
  refine ⟨h1, h2, h3, by rw [h4], by rw [h4], by rw [h4], by rw [h4], ?_⟩
  exact set_callback_other_index w index callback

/-- An index other than `0` is ignored: `set_callback` with index `5` on a wrapper with
both slots installed returns the same wrapper. -/
theorem set_callback_leaves_lifetime_state_witness :
    cfx_dialog_handler_set_callback
        (cfx_dialog_handler_set_callback { calloc_zeroed with ref_count := 1 } 0 99) 5 77 =
      cfx_dialog_handler_set_callback { calloc_zeroed with ref_count := 1 } 0 99 :=
  (set_callback_leaves_lifetime_state
    (cfx_dialog_handler_set_callback { calloc_zeroed with ref_count := 1 } 0 99) 5 77
    ).2.2.2.2.2.2.2 (by decide)

end CfxDialogHandler
